import Mathlib

/-!
Shallow embedding of the metric-derivation and aggregation pipeline of
src/dashboard.py: the preprocessor's derived columns, the filter callback,
calculate_advanced_metrics, the product-share and profit-margin-trend
aggregations, and the insight generator.

Floating-point results of pandas/numpy are modelled over the rationals with
an explicit extended-value type (`EVal`) that distinguishes the finite values
from the infinities and NaN produced by division by zero, so that the
divide-by-zero behaviour of the source is captured exactly.
-/

/-- Extended value: the result of a floating computation, modelled as an exact
rational when finite, with explicit positive infinity, negative infinity and
NaN constructors for the non-finite results numpy produces. -/
inductive EVal where
  | fin : ℚ → EVal
  | pinf : EVal
  | ninf : EVal
  | nan : EVal
  deriving DecidableEq

/-- Division as numpy performs it: a positive numerator over zero gives +Inf,
a negative numerator over zero gives -Inf, zero over zero gives NaN, and a
nonzero denominator gives the exact quotient. -/
def ediv (n d : ℚ) : EVal :=
  if d = 0 then
    if 0 < n then .pinf else if n < 0 then .ninf else .nan
  else .fin (n / d)

/-- Multiplication of an extended value by the positive constant 100, as used
for the percentage scalings in the source. -/
def emul100 : EVal → EVal
  | .fin q => .fin (q * 100)
  | .pinf => .pinf
  | .ninf => .ninf
  | .nan => .nan

/-- Addition of extended values with the usual floating rules: NaN absorbs,
opposite infinities give NaN, an infinity absorbs finite values. -/
def eadd : EVal → EVal → EVal
  | .nan, _ => .nan
  | _, .nan => .nan
  | .pinf, .ninf => .nan
  | .ninf, .pinf => .nan
  | .pinf, _ => .pinf
  | _, .pinf => .pinf
  | .ninf, _ => .ninf
  | _, .ninf => .ninf
  | .fin a, .fin b => .fin (a + b)

/-- Recognizer for the NaN extended value. -/
def EVal.isNan : EVal → Bool
  | .nan => true
  | _ => false

/-- Recognizer for finite extended values. -/
def EVal.isFinite : EVal → Bool
  | .fin _ => true
  | _ => false

/-- Sum of a list of extended values, starting from finite zero. -/
def esum (l : List EVal) : EVal := l.foldl eadd (.fin 0)

/-- Division of an extended value by a natural count (used only with a
positive count); infinities and NaN are preserved. -/
def edivNat (e : EVal) (n : Nat) : EVal :=
  match e with
  | .fin q => .fin (q / (n : ℚ))
  | .pinf => .pinf
  | .ninf => .ninf
  | .nan => .nan

/-- Mean of a list of extended values with pandas semantics: NaN entries are
skipped; if nothing remains the mean is NaN; infinities propagate into the
mean. -/
def emeanSkipna (l : List EVal) : EVal :=
  let kept := l.filter (fun e => !e.isNan)
  if kept.length = 0 then .nan else edivNat (esum kept) kept.length

/-- Time-of-day category of the data model. -/
inductive TimeOfDay where
  | morning
  | afternoon
  | evening
  | night
  deriving DecidableEq

/-- Embeds categorize_time_of_day of the preprocessor: chained range checks
Morning 5..11, Afternoon 12..16, Evening 17..20, with Night as the default
(else) branch covering the wrap-around 21..23 and 0..4. -/
def categorize_time_of_day (hour : Nat) : TimeOfDay :=
  if 5 ≤ hour ∧ hour ≤ 11 then .morning
  else if 12 ≤ hour ∧ hour ≤ 16 then .afternoon
  else if 17 ≤ hour ∧ hour ≤ 20 then .evening
  else .night

/-- One transaction row with the raw columns the claimed code paths read.
The Year_Month strftime key is encoded as a natural number of the form
yyyymm; its numeric order agrees with the lexicographic order pandas uses on
the four-digit-year string keys. -/
structure Record where
  hour : Nat
  dayOfWeek : Nat
  productId : Nat
  regionId : Int
  salesRepId : Nat
  quantity : ℚ
  totalSales : ℚ
  profit : ℚ
  returnFlag : Bool
  year : Int
  yearMonth : Nat
  deriving DecidableEq

/-- Embeds the preprocessor's derived Profit_Margin column:
(Profit / Total_Sales) * 100 with no guard on a zero sales amount. -/
def profitMarginRow (r : Record) : EVal := emul100 (ediv r.profit r.totalSales)

/-- Embeds the preprocessor's derived Order_Size column:
Total_Sales / Quantity_Sold with no guard on a zero quantity. -/
def orderSizeRow (r : Record) : EVal := ediv r.totalSales r.quantity

/-- Embeds pandas groupby(...)[col].sum().reset_index(): one row per distinct
key, keys sorted ascending by the given boolean order, the value column
summed within each key group. -/
def groupSum {κ : Type} [DecidableEq κ] (le : κ → κ → Bool) (key : Record → κ)
    (val : Record → ℚ) (df : List Record) : List (κ × ℚ) :=
  (((df.map key).dedup).insertionSort (fun a b => le a b = true)).map
    (fun k => (k, ((df.filter (fun r => key r = k)).map val).sum))

/-- Embeds the monthly_sales intermediate of calculate_advanced_metrics:
sales summed per Year_Month key, keys ascending. -/
def monthlySales (df : List Record) : List (Nat × ℚ) :=
  groupSum (fun a b => a ≤ b) Record.yearMonth Record.totalSales df

/-- Embeds pandas iloc on a keyed series at the negative position -i, that is
the element i positions from the end; the default pair is never reached under
the length guards of the source. -/
def ilocNeg (l : List (Nat × ℚ)) (i : Nat) : ℚ := (l.getD (l.length - i) (0, 0)).2

/-- The MetricsSnapshot produced by one pass of calculate_advanced_metrics. -/
structure Metrics where
  totalSales : ℚ
  totalQuantity : ℚ
  totalProfit : ℚ
  avgOrderSize : EVal
  returnRate : EVal
  momGrowth : EVal
  yoyGrowth : EVal
  deriving DecidableEq

/-- Embeds calculate_advanced_metrics: plain sums for the totals, an
unguarded quotient for the average order size, the mean of the boolean return
flags for the return rate, and the two positional growth rates over the
sorted monthly sums, each guarded only by a length check. -/
def calculate_advanced_metrics (df : List Record) : Metrics :=
  let monthly := monthlySales df
  { totalSales := (df.map Record.totalSales).sum
    totalQuantity := (df.map Record.quantity).sum
    totalProfit := (df.map Record.profit).sum
    avgOrderSize := ediv ((df.map Record.totalSales).sum) ((df.map Record.quantity).sum)
    returnRate := emul100 (ediv ((df.filter Record.returnFlag).length : ℚ) ((df.length : ℚ)))
    momGrowth :=
      if 2 ≤ monthly.length then
        emul100 (ediv (ilocNeg monthly 1 - ilocNeg monthly 2) (ilocNeg monthly 2))
      else .fin 0
    yoyGrowth :=
      if 13 ≤ monthly.length then
        emul100 (ediv (ilocNeg monthly 1 - ilocNeg monthly 13) (ilocNeg monthly 13))
      else .fin 0 }

/-- Embeds the filtering section of the update_dashboard callback. Each
dropdown value is applied through a Python truthiness test: a missing or
empty region or time selection (both falsy) restricts nothing, and a missing
year or the falsy year value 0 restricts nothing. -/
def update_dashboard (df : List Record) (selectedRegions : List Int)
    (selectedTimes : List TimeOfDay) (selectedYear : Option Int) : List Record :=
  let f1 :=
    if selectedRegions.isEmpty then df
    else df.filter (fun r => r.regionId ∈ selectedRegions)
  let f2 :=
    if selectedTimes.isEmpty then f1
    else f1.filter (fun r => categorize_time_of_day r.hour ∈ selectedTimes)
  match selectedYear with
  | none => f2
  | some y => if y = 0 then f2 else f2.filter (fun r => r.year = y)

/-- Modelled from the spec words of the Filter Engine contract, for comparison
with update_dashboard: keep exactly the records where (region in the set or
the set is empty) and (time-of-day in the set or the set is empty) and (year
equals the selected year or no year is selected). -/
def filterEngineSpec (df : List Record) (selectedRegions : List Int)
    (selectedTimes : List TimeOfDay) (selectedYear : Option Int) : List Record :=
  df.filter (fun r =>
    (selectedRegions.isEmpty || decide (r.regionId ∈ selectedRegions))
    && (selectedTimes.isEmpty || decide (categorize_time_of_day r.hour ∈ selectedTimes))
    && (selectedYear.isNone || selectedYear == some r.year))

/-- Embeds the product_sales intermediate of plot_product_sales_share:
sales summed per Product_ID. -/
def product_sales (df : List Record) : List (Nat × ℚ) :=
  groupSum (fun a b => a ≤ b) Record.productId Record.totalSales df

/-- Embeds the top_products intermediate of plot_product_sales_share: the
per-product sums sorted by total sales descending, first five rows kept. -/
def top_products (df : List Record) : List (Nat × ℚ) :=
  ((product_sales df).insertionSort (fun a b => b.2 ≤ a.2)).take 5

/-- Embeds the synthesized Others bucket of plot_product_sales_share: the sum
of all per-product totals minus the sum of the top five totals. -/
def others_value (df : List Record) : ℚ :=
  ((product_sales df).map (fun p => p.2)).sum - ((top_products df).map (fun p => p.2)).sum

/-- Label type of the pie-chart rows of plot_product_sales_share: a product
id or the synthesized Others label. -/
inductive ProductKey where
  | pid : Nat → ProductKey
  | others : ProductKey
  deriving DecidableEq

/-- Embeds the plot_data rows of plot_product_sales_share: the top five
product rows followed by the synthesized Others row. -/
def plot_product_sales_share (df : List Record) : List (ProductKey × ℚ) :=
  (top_products df).map (fun p => (ProductKey.pid p.1, p.2))
    ++ [(ProductKey.others, others_value df)]

/-- Embeds the monthly profit-margin aggregation of plot_profit_margin_trend:
per Month_Year key (same year-month encoding), the pandas mean of the
row-level margins, which skips NaN entries and propagates infinities. -/
def plot_profit_margin_trend (df : List Record) : List (Nat × EVal) :=
  (((df.map Record.yearMonth).dedup).insertionSort (fun a b => (a ≤ b) = true)).map
    (fun k => (k, emeanSkipna ((df.filter (fun r => r.yearMonth = k)).map profitMarginRow)))

/-- Error outcomes relevant to the insight generator: the explicit
EmptyViewError the specification names, and the ValueError pandas idxmax
raises on an empty series (an unhandled reduction in the source). -/
inductive InsightError where
  | emptyViewError
  | argmaxOfEmpty
  deriving DecidableEq

/-- Embeds pandas Series.idxmax followed by the loc lookup of its value: the
first row attaining the maximum value, or the idxmax ValueError on an empty
series. -/
def idxmaxRow {κ : Type} (l : List (κ × ℚ)) : Except InsightError (κ × ℚ) :=
  match l with
  | [] => .error .argmaxOfEmpty
  | x :: xs => .ok (xs.foldl (fun acc p => if acc.2 < p.2 then p else acc) x)

/-- Alphabetical order of the time-of-day strings, which is the key order
pandas groupby uses for the Time_of_Day column. -/
def todAlphaRank : TimeOfDay → Nat
  | .afternoon => 0
  | .evening => 1
  | .morning => 2
  | .night => 3

/-- Structured content of the insight and recommendation strings of
generate_insights_and_recommendations: every figure interpolated into the
text, in source order. -/
structure InsightsOutput where
  peakTime : TimeOfDay
  peakSalesPercentage : EVal
  topProductId : Nat
  topProductSales : ℚ
  productContribution : EVal
  topRegionId : Int
  topRegionSales : ℚ
  regionContribution : EVal
  highProfitProductId : Nat
  highProfitAmount : ℚ
  deriving DecidableEq

/-- Embeds generate_insights_and_recommendations: four groupby-sum passes,
each reduced with an unguarded idxmax; on a zero-row view the first idxmax
raises, and no branch of the source produces an EmptyViewError or any
no-data sentinel. -/
def generate_insights_and_recommendations (df : List Record) :
    Except InsightError InsightsOutput := do
  let tod_sales := groupSum (fun a b => todAlphaRank a ≤ todAlphaRank b)
    (fun r => categorize_time_of_day r.hour) Record.totalSales df
  let peak ← idxmaxRow tod_sales
  let peakPct := emul100 (ediv peak.2 ((df.map Record.totalSales).sum))
  let prodSums := product_sales df
  let topProd ← idxmaxRow prodSums
  let prodPct := emul100 (ediv topProd.2 ((df.map Record.totalSales).sum))
  let region_sales := groupSum (fun a b => a ≤ b) Record.regionId Record.totalSales df
  let topRegion ← idxmaxRow region_sales
  let regionPct := emul100 (ediv topRegion.2 ((df.map Record.totalSales).sum))
  let product_profit := groupSum (fun a b => a ≤ b) Record.productId Record.profit df
  let highProfit ← idxmaxRow product_profit
  .ok { peakTime := peak.1
        peakSalesPercentage := peakPct
        topProductId := topProd.1
        topProductSales := topProd.2
        productContribution := prodPct
        topRegionId := topRegion.1
        topRegionSales := topRegion.2
        regionContribution := regionPct
        highProfitProductId := highProfit.1
        highProfitAmount := highProfit.2 }

/-! ### Helper lemmas about the groupby-sum embedding -/

/-- Splitting a summed column by a boolean predicate loses nothing. -/
theorem sum_map_filter_split (val : Record → ℚ) (p : Record → Bool) (df : List Record) :
    ((df.filter p).map val).sum + ((df.filter (fun r => !(p r))).map val).sum
      = (df.map val).sum := by
  induction df with
  | nil => simp
  | cons r t ih =>
    cases hp : p r <;> simp [List.filter_cons, hp] <;> linarith [ih]

/-- Grouping a value column over any duplicate-free key list covering the
rows partitions the total: the per-group sums add up to the overall sum. -/
theorem sum_map_groupParts {κ : Type} [DecidableEq κ] (key : Record → κ) (val : Record → ℚ) :
    ∀ ks : List κ, ks.Nodup → ∀ df : List Record, (∀ r ∈ df, key r ∈ ks) →
      (ks.map (fun k => ((df.filter (fun r => key r = k)).map val).sum)).sum
        = (df.map val).sum := by
  intro ks
  induction ks with
  | nil =>
    intro _ df hcov
    cases df with
    | nil => simp
    | cons r t => exact absurd (hcov r (List.mem_cons_self r t)) (List.not_mem_nil _)
  | cons k ks ih =>
    intro hnd df hcov
    have hk : k ∉ ks := (List.nodup_cons.mp hnd).1
    have hnd2 : ks.Nodup := (List.nodup_cons.mp hnd).2
    have hsplit := sum_map_filter_split val (fun r => decide (key r = k)) df
    have htail : ∀ x ∈ ks,
        ((df.filter (fun r => !(decide (key r = k)))).filter (fun r => key r = x))
          = df.filter (fun r => key r = x) := by
      intro x hx
      rw [List.filter_filter]
      apply List.filter_congr
      intro r _
      by_cases hrx : key r = x
      · have hxk : x ≠ k := fun he => hk (he ▸ hx)
        simp [hrx, hxk]
      · simp [hrx]
    have hcov2 : ∀ r ∈ df.filter (fun r => !(decide (key r = k))), key r ∈ ks := by
      intro r hr
      have hm := List.mem_filter.mp hr
      have h2 : ¬ key r = k := by simpa using hm.2
      rcases List.mem_cons.mp (hcov r hm.1) with h | h
      · exact absurd h h2
      · exact h
    have hmap : ks.map (fun x => ((df.filter (fun r => key r = x)).map val).sum)
        = ks.map (fun x =>
            (((df.filter (fun r => !(decide (key r = k)))).filter
              (fun r => key r = x)).map val).sum) := by
      apply List.map_congr_left
      intro x hx
      rw [htail x hx]
    rw [List.map_cons, List.sum_cons, hmap, ih hnd2 _ hcov2]
    linarith [hsplit]

/-- The per-group sums of a groupby-sum add up to the plain column sum. -/
theorem groupSum_sum {κ : Type} [DecidableEq κ] (le : κ → κ → Bool) (key : Record → κ)
    (val : Record → ℚ) (df : List Record) :
    ((groupSum le key val df).map (fun p => p.2)).sum = (df.map val).sum := by
  unfold groupSum
  rw [List.map_map]
  have hperm := List.perm_insertionSort (fun a b => le a b = true) ((df.map key).dedup)
  rw [(hperm.map _).sum_eq]
  exact sum_map_groupParts key val _ (List.nodup_dedup _) df
    (fun r hr => List.mem_dedup.mpr (List.mem_map_of_mem key hr))

/-- A groupby-sum has one row per distinct key of the view. -/
theorem groupSum_length {κ : Type} [DecidableEq κ] (le : κ → κ → Bool) (key : Record → κ)
    (val : Record → ℚ) (df : List Record) :
    (groupSum le key val df).length = ((df.map key).dedup).length := by
  unfold groupSum
  rw [List.length_map, List.length_insertionSort]

/-- Each row of a groupby-sum carries the sum of its own key group. -/
theorem snd_of_mem_groupSum {κ : Type} [DecidableEq κ] {le : κ → κ → Bool} {key : Record → κ}
    {val : Record → ℚ} {df : List Record} {p : κ × ℚ} (hp : p ∈ groupSum le key val df) :
    p.2 = ((df.filter (fun r => key r = p.1)).map val).sum := by
  unfold groupSum at hp
  rcases List.mem_map.mp hp with ⟨k, _, rfl⟩
  rfl

/-! ### Helper lemmas about the product-share aggregation -/

/-- The Others bucket equals the sum of the per-product totals left out of
the top five. -/
theorem others_value_eq_drop (df : List Record) :
    others_value df
      = ((((product_sales df).insertionSort (fun a b => b.2 ≤ a.2)).drop 5).map
          (fun p => p.2)).sum := by
  unfold others_value top_products
  have hperm := List.perm_insertionSort (fun a b : Nat × ℚ => b.2 ≤ a.2) (product_sales df)
  have hx := (hperm.map (fun p => p.2)).sum_eq
  have hsplit :
      ((List.insertionSort (fun a b : Nat × ℚ => b.2 ≤ a.2) (product_sales df)).map
        (fun p => p.2)).sum
      = ((((product_sales df).insertionSort (fun a b : Nat × ℚ => b.2 ≤ a.2)).take 5).map
          (fun p => p.2)).sum
        + ((((product_sales df).insertionSort (fun a b : Nat × ℚ => b.2 ≤ a.2)).drop 5).map
            (fun p => p.2)).sum := by
    conv_lhs =>
      rw [← List.take_append_drop 5
        (List.insertionSort (fun a b : Nat × ℚ => b.2 ≤ a.2) (product_sales df))]
    rw [List.map_append, List.sum_append]
  linarith [hx, hsplit]

/-- The top-five totals and the Others bucket add up to the total sales of
the view. -/
theorem top_products_sum_add_others (df : List Record) :
    ((top_products df).map (fun p => p.2)).sum + others_value df
      = (df.map Record.totalSales).sum := by
  have hsum : ((product_sales df).map (fun p => p.2)).sum = (df.map Record.totalSales).sum := by
    unfold product_sales
    exact groupSum_sum _ _ _ df
  unfold others_value
  linarith [hsum]

/-- With only nonnegative row sales the Others bucket cannot go negative. -/
theorem others_value_nonneg (df : List Record) (hnn : ∀ r ∈ df, 0 ≤ r.totalSales) :
    0 ≤ others_value df := by
  rw [others_value_eq_drop]
  apply List.sum_nonneg
  intro x hx
  rcases List.mem_map.mp hx with ⟨p, hp, rfl⟩
  have hpin : p ∈ groupSum (fun a b => a ≤ b) Record.productId Record.totalSales df :=
    (List.perm_insertionSort _ _).subset (List.mem_of_mem_drop hp)
  rw [snd_of_mem_groupSum hpin]
  apply List.sum_nonneg
  intro y hy
  rcases List.mem_map.mp hy with ⟨r, hr, rfl⟩
  exact hnn r (List.mem_filter.mp hr).1

/-- With fewer than five distinct products the Others bucket is exactly 0. -/
theorem others_value_eq_zero (df : List Record)
    (hlt : ((df.map Record.productId).dedup).length < 5) :
    others_value df = 0 := by
  rw [others_value_eq_drop]
  have hlen : (List.insertionSort (fun a b : Nat × ℚ => b.2 ≤ a.2) (product_sales df)).length
      = ((df.map Record.productId).dedup).length := by
    rw [List.length_insertionSort]
    exact groupSum_length (fun a b => a ≤ b) Record.productId Record.totalSales df
  rw [List.drop_eq_nil_of_le (by rw [hlen]; omega), List.map_nil, List.sum_nil]

/-- The monthly sales list has one row per distinct Year_Month key. -/
theorem monthlySales_length (df : List Record) :
    (monthlySales df).length = ((df.map Record.yearMonth).dedup).length := by
  unfold monthlySales
  exact groupSum_length _ _ _ df

/-! ### Concrete views used by the witnesses and counterexamples -/

/-- Row builder for the concrete test views, fixing the fields a given case
does not vary. -/
def mkRow (pid : Nat) (reg : Int) (q s pr : ℚ) (rf : Bool) (y : Int) (ym hr : Nat) : Record :=
  { hour := hr, dayOfWeek := 0, productId := pid, regionId := reg, salesRepId := 0,
    quantity := q, totalSales := s, profit := pr, returnFlag := rf, year := y, yearMonth := ym }

/-- A single ordinary row in region 1 with sales 100 over quantity 2. -/
def exRow : Record := mkRow 1 1 2 100 10 false 2023 202301 9

/-- Two-month view whose Year_Month sums are 1000 then 1200. -/
def exMomView : List Record :=
  [mkRow 1 1 1 1000 0 false 2023 202301 9, mkRow 1 1 1 1200 0 false 2023 202302 9]

/-- Two-month view whose second-to-last monthly sum is 0. -/
def exZeroPrevView : List Record :=
  [mkRow 1 1 1 0 0 false 2023 202301 9, mkRow 1 1 1 100 0 false 2023 202302 9]

/-- Six-product view with five totals of 100 and one of -50. -/
def exSixProductView : List Record :=
  [mkRow 1 1 1 100 0 false 2023 202301 9, mkRow 2 1 1 100 0 false 2023 202301 9,
   mkRow 3 1 1 100 0 false 2023 202301 9, mkRow 4 1 1 100 0 false 2023 202301 9,
   mkRow 5 1 1 100 0 false 2023 202301 9, mkRow 6 1 1 (-50) 0 false 2023 202301 9]

/-- Thirteen-month view with monthly sums 100 for a year and 150 last. -/
def exThirteenMonthView : List Record :=
  [mkRow 1 1 1 100 0 false 2023 202301 9, mkRow 1 1 1 100 0 false 2023 202302 9,
   mkRow 1 1 1 100 0 false 2023 202303 9, mkRow 1 1 1 100 0 false 2023 202304 9,
   mkRow 1 1 1 100 0 false 2023 202305 9, mkRow 1 1 1 100 0 false 2023 202306 9,
   mkRow 1 1 1 100 0 false 2023 202307 9, mkRow 1 1 1 100 0 false 2023 202308 9,
   mkRow 1 1 1 100 0 false 2023 202309 9, mkRow 1 1 1 100 0 false 2023 202310 9,
   mkRow 1 1 1 100 0 false 2023 202311 9, mkRow 1 1 1 100 0 false 2023 202312 9,
   mkRow 1 1 1 150 0 false 2024 202401 9]

/-- Row with a zero sales amount and positive profit. -/
def exZeroSalesRow : Record := mkRow 1 1 1 0 5 false 2023 202301 9

/-! ### Boolean bookkeeping for the filter claim -/

/-- An optional restriction behind a Python truthiness test equals a single
filter whose predicate is disabled by the truthy flag. -/
theorem filter_unless (b : Bool) (df : List Record) (p : Record → Bool) :
    (if b then df else df.filter p) = df.filter (fun r => b || p r) := by
  cases b
  · simp
  · simp

/-- Conjunction shuffle used to normalize composed filter predicates. -/
theorem bool_shuffle (a b c : Bool) : ((c && b) && a) = (a && (b && c)) := by
  cases a <;> cases b <;> cases c <;> rfl

/-- Conjunction shuffle for the two-filter case against a trailing true. -/
theorem bool_shuffle2 (a b : Bool) : (b && a) = (a && (b && true)) := by
  cases a <;> cases b <;> rfl

/-! ### Claims -/

/-- C1 counterexample: filtering a single region-1 row by the region set {2}
yields an empty view whose average order size is NaN from 0/0, so not every
snapshot field is 0. -/
theorem C1_counterexample :
    (calculate_advanced_metrics (update_dashboard [exRow] [2] [] none)).avgOrderSize
      ≠ EVal.fin 0 := by
  decide

/-- C1 amended: a filter pass matching zero rows still produces a snapshot
(no failure), with zero totals and zero MoM and YoY growth, but the average
order size and the return rate are NaN (0/0 without a guard), not 0. -/
theorem C1_empty_view_metrics : ∀ (df : List Record) (regions : List Int)
    (times : List TimeOfDay) (year : Option Int),
    update_dashboard df regions times year = [] →
    calculate_advanced_metrics (update_dashboard df regions times year) =
      { totalSales := 0, totalQuantity := 0, totalProfit := 0,
        avgOrderSize := EVal.nan, returnRate := EVal.nan,
        momGrowth := EVal.fin 0, yoyGrowth := EVal.fin 0 } := by
  intro df regions times year h
  rw [h]
  decide

/-- Witness for C1 on the concrete one-row view filtered by region set {2}. -/
theorem C1_witness :
    update_dashboard [exRow] [2] [] none = []
    ∧ calculate_advanced_metrics (update_dashboard [exRow] [2] [] none) =
      { totalSales := 0, totalQuantity := 0, totalProfit := 0,
        avgOrderSize := EVal.nan, returnRate := EVal.nan,
        momGrowth := EVal.fin 0, yoyGrowth := EVal.fin 0 } :=
  ⟨by decide, C1_empty_view_metrics [exRow] [2] [] none (by decide)⟩

/-- C2 counterexample: on the empty view the average order size is NaN, not
the claimed 0. -/
theorem C2_counterexample :
    (calculate_advanced_metrics ([] : List Record)).avgOrderSize ≠ EVal.fin 0 := by
  decide

/-- C2 amended: the average order size equals total sales / total quantity
whenever the total quantity is nonzero (in particular when it is positive);
when the view is empty or the total quantity is 0 it is a non-finite value
(NaN or an infinity), never 0. -/
theorem C2_avg_order_size : ∀ df : List Record,
    ((df.map Record.quantity).sum ≠ 0 →
      (calculate_advanced_metrics df).avgOrderSize
        = EVal.fin ((df.map Record.totalSales).sum / (df.map Record.quantity).sum))
    ∧ ((df.map Record.quantity).sum = 0 →
      (calculate_advanced_metrics df).avgOrderSize.isFinite = false) := by
  intro df
  constructor
  · intro hq
    simp only [calculate_advanced_metrics]
    simp [ediv, hq]
  · intro hq
    have hfold : (calculate_advanced_metrics df).avgOrderSize
        = ediv ((df.map Record.totalSales).sum) 0 := by
      simp only [calculate_advanced_metrics]
      rw [hq]
    rw [hfold]
    unfold ediv
    rcases lt_trichotomy ((df.map Record.totalSales).sum) 0 with h | h | h
    · rw [if_pos rfl, if_neg (by linarith), if_pos h]; rfl
    · rw [if_pos rfl, if_neg (by linarith), if_neg (by linarith)]; rfl
    · rw [if_pos rfl, if_pos h]; rfl

/-- Witness for C2 on the one-row view with quantity 2 and sales 100. -/
theorem C2_witness :
    (([exRow].map Record.quantity).sum ≠ 0)
    ∧ (calculate_advanced_metrics [exRow]).avgOrderSize
      = EVal.fin ((([exRow].map Record.totalSales)).sum / (([exRow].map Record.quantity)).sum) :=
  ⟨by norm_num [exRow, mkRow], (C2_avg_order_size [exRow]).1 (by norm_num [exRow, mkRow])⟩

/-- C3 counterexample: on a two-month view whose second-to-last monthly sum
is 0, the MoM growth is +Inf, not the claimed 0. -/
theorem C3_counterexample :
    (calculate_advanced_metrics exZeroPrevView).momGrowth ≠ EVal.fin 0 := by
  norm_num [calculate_advanced_metrics, monthlySales, groupSum, exZeroPrevView, mkRow, ilocNeg,
    List.insertionSort, List.orderedInsert, ediv, emul100]
  decide

/-- C3 amended: with at least two months and a zero second-to-last monthly
sum, the division by zero propagates: the MoM growth field is a non-finite
value (an infinity or NaN), not 0. -/
theorem C3_mom_zero_denominator : ∀ df : List Record,
    2 ≤ (monthlySales df).length → ilocNeg (monthlySales df) 2 = 0 →
    (calculate_advanced_metrics df).momGrowth.isFinite = false := by
  intro df h2 hz
  have hmom : (calculate_advanced_metrics df).momGrowth
      = emul100 (ediv (ilocNeg (monthlySales df) 1 - ilocNeg (monthlySales df) 2)
          (ilocNeg (monthlySales df) 2)) := by
    simp only [calculate_advanced_metrics]
    rw [if_pos h2]
  rw [hmom, hz, sub_zero]
  unfold ediv
  rcases lt_trichotomy (ilocNeg (monthlySales df) 1) 0 with h | h | h
  · rw [if_pos rfl, if_neg (by linarith), if_pos h]; rfl
  · rw [if_pos rfl, if_neg (by linarith), if_neg (by linarith)]; rfl
  · rw [if_pos rfl, if_pos h]; rfl

/-- Witness for C3 on the two-month view with monthly sums 0 then 100. -/
theorem C3_witness :
    2 ≤ (monthlySales exZeroPrevView).length
    ∧ ilocNeg (monthlySales exZeroPrevView) 2 = 0
    ∧ (calculate_advanced_metrics exZeroPrevView).momGrowth.isFinite = false :=
  ⟨by decide,
    by norm_num [monthlySales, groupSum, exZeroPrevView, mkRow, ilocNeg,
      List.insertionSort, List.orderedInsert],
    C3_mom_zero_denominator exZeroPrevView (by decide)
      (by norm_num [monthlySales, groupSum, exZeroPrevView, mkRow, ilocNeg,
        List.insertionSort, List.orderedInsert])⟩

/-- C4: MoM growth is 0 with fewer than two distinct Year_Month keys; with at
least two and a nonzero second-to-last monthly sum it equals the positional
formula over the ascending monthly sums, and the concrete view with monthly
sums 1000 then 1200 yields exactly 20 percent. -/
theorem C4_mom_growth :
    (∀ df : List Record,
      (((df.map Record.yearMonth).dedup).length < 2 →
        (calculate_advanced_metrics df).momGrowth = EVal.fin 0)
      ∧ (2 ≤ ((df.map Record.yearMonth).dedup).length →
          ilocNeg (monthlySales df) 2 ≠ 0 →
          (calculate_advanced_metrics df).momGrowth
            = EVal.fin ((ilocNeg (monthlySales df) 1 - ilocNeg (monthlySales df) 2)
                / ilocNeg (monthlySales df) 2 * 100)))
    ∧ (calculate_advanced_metrics exMomView).momGrowth = EVal.fin 20 := by
  constructor
  · intro df
    constructor
    · intro hlt
      have hlen : (monthlySales df).length < 2 := by rw [monthlySales_length]; exact hlt
      simp only [calculate_advanced_metrics]
      rw [if_neg (by omega)]
    · intro hge hz
      have hlen : 2 ≤ (monthlySales df).length := by rw [monthlySales_length]; exact hge
      simp only [calculate_advanced_metrics]
      rw [if_pos hlen]
      unfold ediv
      rw [if_neg hz]
      rfl
  · norm_num [calculate_advanced_metrics, monthlySales, groupSum, exMomView, mkRow, ilocNeg,
      List.insertionSort, List.orderedInsert, ediv, emul100]

/-- Witness for C4 on the two-month view with sums 1000 then 1200. -/
theorem C4_witness :
    2 ≤ ((exMomView.map Record.yearMonth).dedup).length
    ∧ ilocNeg (monthlySales exMomView) 2 ≠ 0
    ∧ (calculate_advanced_metrics exMomView).momGrowth
      = EVal.fin ((ilocNeg (monthlySales exMomView) 1 - ilocNeg (monthlySales exMomView) 2)
          / ilocNeg (monthlySales exMomView) 2 * 100) :=
  ⟨by decide,
    by norm_num [monthlySales, groupSum, exMomView, mkRow, ilocNeg,
      List.insertionSort, List.orderedInsert],
    (C4_mom_growth.1 exMomView).2 (by decide)
      (by norm_num [monthlySales, groupSum, exMomView, mkRow, ilocNeg,
        List.insertionSort, List.orderedInsert])⟩

/-- C5: the preprocessor's time-of-day categorization is total on hours 0-23,
mapping 5-11 to Morning, 12-16 to Afternoon, 17-20 to Evening, and every
remaining hour (21-23 and 0-4) to Night. -/
theorem C5_time_of_day_total : ∀ hr : Nat, hr ≤ 23 →
    ((5 ≤ hr ∧ hr ≤ 11) ↔ categorize_time_of_day hr = TimeOfDay.morning)
    ∧ ((12 ≤ hr ∧ hr ≤ 16) ↔ categorize_time_of_day hr = TimeOfDay.afternoon)
    ∧ ((17 ≤ hr ∧ hr ≤ 20) ↔ categorize_time_of_day hr = TimeOfDay.evening)
    ∧ ((hr ≤ 4 ∨ 21 ≤ hr) ↔ categorize_time_of_day hr = TimeOfDay.night) := by
  decide

/-- Witness for C5 at hour 9, a Morning hour. -/
theorem C5_witness : (9 : Nat) ≤ 23
    ∧ ((5 ≤ 9 ∧ (9 : Nat) ≤ 11) ↔ categorize_time_of_day 9 = TimeOfDay.morning) :=
  ⟨by decide, (C5_time_of_day_total 9 (by decide)).1⟩

/-- C6 counterexample: with six products, five totals of 100 and one of -50,
the Others bucket is -50, strictly negative. -/
theorem C6_counterexample : ¬ (0 ≤ others_value exSixProductView) := by
  norm_num [others_value, top_products, product_sales, groupSum, exSixProductView, mkRow,
    List.insertionSort, List.orderedInsert]

/-- C6 amended: the top-five totals plus the Others bucket always equal the
view's total sales, the Others bucket is 0 when fewer than five distinct
products exist, and it is nonnegative provided every row's sales amount is
nonnegative (a negative product total can push it below zero). -/
theorem C6_others_bucket : ∀ df : List Record,
    ((∀ r ∈ df, 0 ≤ r.totalSales) → 0 ≤ others_value df)
    ∧ ((top_products df).map (fun p => p.2)).sum + others_value df
        = (df.map Record.totalSales).sum
    ∧ (((df.map Record.productId).dedup).length < 5 → others_value df = 0) :=
  fun df => ⟨others_value_nonneg df, top_products_sum_add_others df, others_value_eq_zero df⟩

/-- Witness for C6 on the nonnegative one-product view. -/
theorem C6_witness :
    (∀ r ∈ exMomView, 0 ≤ r.totalSales)
    ∧ 0 ≤ others_value exMomView
    ∧ others_value exMomView = 0 :=
  ⟨by decide, (C6_others_bucket exMomView).1 (by decide),
    (C6_others_bucket exMomView).2.2 (by decide)⟩

/-- C7 counterexample: with the falsy year 0 selected, the callback imposes
no year restriction, while the spec predicate excludes the 2023 record, so
the two outputs differ on a one-row view. -/
theorem C7_counterexample :
    update_dashboard [exRow] [] [] (some 0) ≠ filterEngineSpec [exRow] [] [] (some 0) := by
  decide

/-- C7 amended: the filtered view is exactly the records satisfying the
conjunction of the three optional restrictions, except that a selected year
of 0, falsy in Python, also imposes no year restriction. -/
theorem C7_filter_semantics : ∀ (df : List Record) (regions : List Int)
    (times : List TimeOfDay) (year : Option Int),
    update_dashboard df regions times year = df.filter (fun r =>
      (regions.isEmpty || decide (r.regionId ∈ regions))
      && ((times.isEmpty || decide (categorize_time_of_day r.hour ∈ times))
        && (match year with
            | none => true
            | some y => decide (y = 0) || decide (r.year = y)))) := by
  intro df regions times year
  cases year with
  | none =>
    simp only [update_dashboard]
    rw [filter_unless times.isEmpty, filter_unless regions.isEmpty, List.filter_filter]
    apply List.filter_congr
    intro r _
    exact bool_shuffle2 _ _
  | some y =>
    simp only [update_dashboard]
    by_cases hy : y = 0
    · rw [if_pos hy, filter_unless times.isEmpty, filter_unless regions.isEmpty,
        List.filter_filter]
      apply List.filter_congr
      intro r _
      have hd : decide (y = 0) = true := by simp [hy]
      rw [hd, Bool.true_or]
      exact bool_shuffle2 _ _
    · rw [if_neg hy, filter_unless times.isEmpty, filter_unless regions.isEmpty,
        List.filter_filter, List.filter_filter]
      apply List.filter_congr
      intro r _
      have hd : decide (y = 0) = false := by simp [hy]
      rw [hd, Bool.false_or]
      exact bool_shuffle _ _ _

/-- C8: YoY growth is 0 with fewer than 13 distinct Year_Month keys; with at
least 13 it equals the positional lookback formula comparing the last
monthly sum with the one 13 sorted positions back, when that one is
nonzero. -/
theorem C8_yoy_growth : ∀ df : List Record,
    (((df.map Record.yearMonth).dedup).length < 13 →
      (calculate_advanced_metrics df).yoyGrowth = EVal.fin 0)
    ∧ (13 ≤ ((df.map Record.yearMonth).dedup).length →
        ilocNeg (monthlySales df) 13 ≠ 0 →
        (calculate_advanced_metrics df).yoyGrowth
          = EVal.fin ((ilocNeg (monthlySales df) 1 - ilocNeg (monthlySales df) 13)
              / ilocNeg (monthlySales df) 13 * 100)) := by
  intro df
  constructor
  · intro hlt
    have hlen : (monthlySales df).length < 13 := by rw [monthlySales_length]; exact hlt
    simp only [calculate_advanced_metrics]
    rw [if_neg (by omega)]
  · intro hge hz
    have hlen : 13 ≤ (monthlySales df).length := by rw [monthlySales_length]; exact hge
    simp only [calculate_advanced_metrics]
    rw [if_pos hlen]
    unfold ediv
    rw [if_neg hz]
    rfl

/-- Witness for C8 on the thirteen-month view with first sum 100 and last
sum 150. -/
theorem C8_witness :
    13 ≤ ((exThirteenMonthView.map Record.yearMonth).dedup).length
    ∧ ilocNeg (monthlySales exThirteenMonthView) 13 ≠ 0
    ∧ (calculate_advanced_metrics exThirteenMonthView).yoyGrowth
      = EVal.fin ((ilocNeg (monthlySales exThirteenMonthView) 1
            - ilocNeg (monthlySales exThirteenMonthView) 13)
          / ilocNeg (monthlySales exThirteenMonthView) 13 * 100) :=
  ⟨by decide,
    by norm_num [monthlySales, groupSum, exThirteenMonthView, mkRow, ilocNeg,
      List.insertionSort, List.orderedInsert],
    (C8_yoy_growth exThirteenMonthView).2 (by decide)
      (by norm_num [monthlySales, groupSum, exThirteenMonthView, mkRow, ilocNeg,
        List.insertionSort, List.orderedInsert])⟩

/-- C9 counterexample: on the zero-row view the insight generator neither
fails with an explicit EmptyViewError nor returns any output or sentinel. -/
theorem C9_counterexample :
    ¬ (generate_insights_and_recommendations [] = Except.error InsightError.emptyViewError
      ∨ ∃ out, generate_insights_and_recommendations [] = Except.ok out) := by
  intro h
  have hval : generate_insights_and_recommendations []
      = Except.error InsightError.argmaxOfEmpty := rfl
  rcases h with h | ⟨out, h⟩
  · rw [hval] at h
    exact absurd (Except.error.inj h) (by decide)
  · rw [hval] at h
    exact Except.noConfusion h

/-- C9 amended: on a zero-row view the insight generator fails from the
unhandled idxmax reduction on an empty series, not with an explicit
EmptyViewError and not with a no-data sentinel result. -/
theorem C9_empty_view :
    generate_insights_and_recommendations [] = Except.error InsightError.argmaxOfEmpty := rfl

/-- C10: the preprocessor's per-row profit margin divides by a zero sales
amount with no guard, producing a non-finite value that flows unguarded into
the monthly mean of the profit-margin trend. -/
theorem C10_margin_divide_by_zero :
    profitMarginRow exZeroSalesRow = EVal.pinf
    ∧ plot_profit_margin_trend [exZeroSalesRow, exRow] = [(202301, EVal.pinf)] := by
  constructor
  · norm_num [profitMarginRow, exZeroSalesRow, mkRow, ediv, emul100]
  · norm_num [plot_profit_margin_trend, profitMarginRow, exZeroSalesRow, exRow, mkRow,
      ediv, emul100, emeanSkipna, esum, eadd, edivNat, EVal.isNan,
      List.insertionSort, List.orderedInsert]
